import Mathlib

/-!
Verification of the medical-data ETL pipeline core: a shallow embedding of
the extractors (pagination and retry loops), the transformation/enrichment
engine (severity scoring, phase parsing, age normalization, the fuzzy
cross-dataset join), and the data-quality validator, with theorems checking
the natural-language specification against these embeddings.

Modelling conventions:
- pandas DataFrames become lists of records (structures or association
  lists); column presence is tracked explicitly where the source branches
  on it.
- Python floats become rationals; machine floating point plays no role in
  the properties proved here.
- pandas groupby sorts group keys alphabetically; the embedding groups in
  first-appearance order, which is immaterial to every property proved here
  (none depends on output row order).
- Exceptions become explicit sum types; a function that cannot raise is a
  total Lean function.
-/

namespace MedEtl

/-! ## String utilities shared by the transformers

These model the Python string operations used by the source:
str.lower, str.upper, str.strip, str.replace(' ', ''), and the
substring test `a in b`. Python str.strip removes unicode whitespace;
the embedding uses Char.isWhitespace, which agrees on all inputs
appearing in this development. -/

def pyLower (s : String) : String :=
  String.mk (s.data.map Char.toLower)

def pyUpper (s : String) : String :=
  String.mk (s.data.map Char.toUpper)

def pyStrip (s : String) : String :=
  String.mk (((s.data.dropWhile Char.isWhitespace).reverse.dropWhile
    Char.isWhitespace).reverse)

def removeSpaces (s : String) : String :=
  String.mk (s.data.filter (fun c => !(c == ' ')))

/-- Suffixes of a list, longest first, always ending with the empty list. -/
def suffixes : List Char → List (List Char)
  | [] => [[]]
  | c :: cs => (c :: cs) :: suffixes cs

/-- Python substring containment a in b (contiguous substring). -/
def isSubstrOf (a b : String) : Bool :=
  (suffixes b.data).any (fun t => a.data.isPrefixOf t)

/-- The normalize helper inside DrugTransformer._enrich_data:
text.lower().strip().replace(' ', ''). A non-string (NaN) input is
modelled as the caller passing the empty string, as the source returns
"" for non-strings. -/
def normalizeText (s : String) : String :=
  removeSpaces (pyStrip (pyLower s))

/-! ## FDAExtractor._extract_age

The source reads patientonsetage (a JSON string) and patientonsetageunit,
converts the magnitude with float(), and maps the unit code through a fixed
table. The embedding takes the already-parsed magnitude as an Option
rational; a missing magnitude (None or empty string on the wire, which are
falsy in Python) is none. -/

def extractAge (ageValue : Option ℚ) (ageUnit : Option String) : Option ℚ :=
  match ageValue with
  | none => none
  | some v =>
    if ageUnit = some "800" then some (v * 10)
    else if ageUnit = some "801" then some v
    else if ageUnit = some "802" then some (v / 12)
    else if ageUnit = some "803" then some (v / 52)
    else if ageUnit = some "804" then some (v / 365)
    else some v

/-! ## DrugTransformer._parse_phase -/

/-- DrugTransformer._parse_phase: None or empty gives 0.0, otherwise the
string is uppercased and matched against the if/elif chain of substring
tests, first hit winning. -/
def parsePhase (phase : Option String) : ℚ :=
  match phase with
  | none => 0
  | some s =>
    if s = "" then 0
    else
      let u := pyUpper s
      if isSubstrOf "PHASE 4" u || isSubstrOf "PHASE IV" u then 4
      else if isSubstrOf "PHASE 3" u || isSubstrOf "PHASE III" u then 3
      else if isSubstrOf "PHASE 2" u || isSubstrOf "PHASE II" u then 2
      else if isSubstrOf "EARLY" u then 1/2
      else if isSubstrOf "PHASE 1" u || isSubstrOf "PHASE I" u then 1
      else 0

/-- The ordered pattern table exactly as the specification words it:
PHASE 4/IV, then PHASE 3/III, then PHASE 2/II, then EARLY, then
PHASE 1/I. Used to state the refinement of parsePhase against the
specification. -/
def phaseTable : List (List String × ℚ) :=
  [(["PHASE 4", "PHASE IV"], 4),
   (["PHASE 3", "PHASE III"], 3),
   (["PHASE 2", "PHASE II"], 2),
   (["EARLY"], 1/2),
   (["PHASE 1", "PHASE I"], 1)]

/-- First-matching-rule lookup over an ordered pattern table, defaulting
to 0 when no rule matches; the specification-side description of phase
parsing. -/
def firstMatchPhase (u : String) : List (List String × ℚ) → ℚ
  | [] => 0
  | (pats, v) :: rest =>
    if pats.any (fun p => isSubstrOf p u) then v else firstMatchPhase u rest

/-! ## DrugTransformer._calculate_severity

The source starts from a zero series and adds serious times 2, deaths
times 10 and hospitalizations times 5, each term guarded by column
presence and with NaN filled to 0. The embedding is per row: one Bool per
column for presence, an Option rational per value with none for NaN. -/

def calculateSeverityRow (hasSerious hasDeath hasHosp : Bool)
    (serious death hosp : Option ℚ) : ℚ :=
  (if hasSerious then (serious.getD 0) * 2 else 0) +
  (if hasDeath then (death.getD 0) * 10 else 0) +
  (if hasHosp then (hosp.getD 0) * 5 else 0)

/-! ## Retry logic: FDAExtractor._make_request and
ClinicalTrialsExtractor._fetch_page

The HTTP layer is abstracted as an oracle giving the outcome of each
attempt. requests raises RequestException for timeouts, connection
errors and, via raise_for_status, for every 4xx/5xx status; the except
clause in _make_request catches the whole class uniformly, so the error
payload carries which kind it was but the control flow never inspects it. -/

inductive HttpErr where
  | timeout
  | connError
  | status (code : Nat)
deriving DecidableEq, Repr

inductive ReqOutcome (α : Type) where
  | ok (v : α)
  | exc (e : HttpErr)
deriving DecidableEq, Repr

/-- The for-attempt-in-range(max_retries) loop of
FDAExtractor._make_request. Returns the result (none models the
unreachable fall-through of the Python for loop) together with the list
of sleep durations performed, in order: retry_delay * (attempt + 1)
after each non-final failure. -/
def runAttempts (oracle : Nat → ReqOutcome α) (retryDelay maxRetries : Nat) :
    List Nat → Option (Except HttpErr α) × List Nat
  | [] => (none, [])
  | attempt :: rest =>
    match oracle attempt with
    | .ok v => (some (.ok v), [])
    | .exc e =>
      if attempt < maxRetries - 1 then
        let r := runAttempts oracle retryDelay maxRetries rest
        (r.1, retryDelay * (attempt + 1) :: r.2)
      else (some (.error e), [])

/-- FDAExtractor._make_request with max_retries = 3 and retry_delay = 2. -/
def makeRequest (oracle : Nat → ReqOutcome α) :
    Option (Except HttpErr α) × List Nat :=
  runAttempts oracle 2 3 (List.range 3)

/-- ClinicalTrialsExtractor._fetch_page: a single request whose
RequestException is logged and re-raised; there is no retry loop. -/
def fetchPage (outcome : ReqOutcome α) : Except HttpErr α :=
  match outcome with
  | .ok v => .ok v
  | .exc e => .error e

/-- A concrete oracle whose first attempt fails with HTTP 404 and whose
later attempts succeed with value 7. -/
def oracle404 : Nat → ReqOutcome Nat :=
  fun n => if n = 0 then .exc (.status 404) else .ok 7

/-! ## FDAExtractor.extract_drug_events pagination loop -/

inductive FdaResp (α : Type) where
  | err
  | noResults
  | results (records : List α)
deriving DecidableEq, Repr

/-- The while len(all_records) < limit loop of extract_drug_events.
The oracle maps a skip offset to the response of that request; err models
an exception after _make_request exhausted its retries (caught, loop
breaks with partial data), noResults the missing results key. A page
shorter than params.limit = min(limit, 1000) ends the loop; otherwise
skip advances by that page size. -/
def fdaExtractLoop (oracle : Nat → FdaResp α) (limit skip : Nat)
    (acc : List α) : List α :=
  if _h : acc.length < limit then
    match oracle skip with
    | .err => acc
    | .noResults => acc
    | .results rs =>
      if rs.length < min limit 1000 then acc ++ rs
      else fdaExtractLoop oracle limit (skip + min limit 1000) (acc ++ rs)
  else acc
termination_by limit - acc.length
decreasing_by
  simp only [List.length_append]
  omega

/-- FDAExtractor.extract_drug_events at the record-list level: run the
pagination loop from skip 0, then truncate with all_records[:limit]. -/
def extractDrugEvents (oracle : Nat → FdaResp α) (limit : Nat) : List α :=
  (fdaExtractLoop oracle limit 0 []).take limit

/-! ## ClinicalTrialsExtractor.extract_studies pagination loop -/

inductive CtResp (α : Type) where
  | err
  | page (studies : List α) (nextToken : Option String)
deriving DecidableEq, Repr

/-- Python falsiness of the continuation token: None or the empty
string. -/
def tokenFalsy : Option String → Bool
  | none => true
  | some t => t = ""

/-- Python truthiness test if max_studies and len(all_studies) >=
max_studies: None and 0 are falsy. -/
def maxReached (maxStudies : Option Nat) (n : Nat) : Bool :=
  match maxStudies with
  | none => false
  | some m => if m = 0 then false else decide (m ≤ n)

/-- The while True loop of extract_studies. The source serves a finite
sequence of page responses; running past the end, or an err entry, models
a fetch raising (the except clause breaks with accumulated data). After
extending, the loop first breaks on a falsy token, only then truncates
and breaks when max_studies is reached, mirroring the order of the two
checks in the source. -/
def ctLoop (maxStudies : Option Nat) : List (CtResp α) → List α → List α
  | [], acc => acc
  | .err :: _, acc => acc
  | .page studies tok :: rest, acc =>
    let acc2 := acc ++ studies
    if tokenFalsy tok then acc2
    else if maxReached maxStudies acc2.length then
      acc2.take (maxStudies.getD 0)
    else ctLoop maxStudies rest acc2

/-- ClinicalTrialsExtractor.extract_studies at the study-list level. -/
def extractStudies (pages : List (CtResp α)) (maxStudies : Option Nat) :
    List α :=
  ctLoop maxStudies pages []

/-! ## DrugTransformer._enrich_data

Rows are the transformed FDA and ClinicalTrials frames as they reach
enrichment. Rows lacking the groupby key do not occur here (pandas drops
NaN group keys; the claims under study involve present keys only), and
the drug_indication column is present whenever FDA rows are, as produced
by _transform_fda_data from _parse_records. -/

structure FdaRow where
  safetyreportid : String
  drug_name_clean : String
  drug_indication : String
  severity_score : ℚ
  seriousnessdeath : ℚ
  seriousnesshospitalization : ℚ
deriving DecidableEq, Repr

structure CtRow where
  nct_id : String
  conditions_clean : String
  enrollment_count : ℤ
  is_completed : ℤ
deriving DecidableEq, Repr

structure DrugAgg where
  drug_name : String
  adverse_event_count : ℕ
  avg_severity_score : ℚ
  death_count : ℚ
  hospitalization_count : ℚ
deriving DecidableEq, Repr

structure CondAgg where
  condition : String
  trial_count : ℕ
  total_enrollment : ℤ
  completed_trials : ℤ
deriving DecidableEq, Repr

/-- Distinct elements of a list in first-appearance order. -/
def distinctFirst {β : Type} [DecidableEq β] (l : List β) : List β :=
  l.foldl (fun acc k => if k ∈ acc then acc else acc ++ [k]) []

/-- The fda_df.groupby drug_name_clean aggregation: count of
safetyreportid, mean severity_score, sum of seriousnessdeath, sum of
seriousnesshospitalization. -/
def fdaSummary (rows : List FdaRow) : List DrugAgg :=
  (distinctFirst (rows.map FdaRow.drug_name_clean)).map (fun name =>
    let grp := rows.filter (fun r => r.drug_name_clean == name)
    { drug_name := name
      adverse_event_count := grp.length
      avg_severity_score :=
        (grp.map FdaRow.severity_score).sum / (grp.length : ℚ)
      death_count := (grp.map FdaRow.seriousnessdeath).sum
      hospitalization_count :=
        (grp.map FdaRow.seriousnesshospitalization).sum })

/-- The ct_df.groupby conditions_clean aggregation: count of nct_id, sum
of enrollment_count, sum of is_completed. -/
def ctSummary (rows : List CtRow) : List CondAgg :=
  (distinctFirst (rows.map CtRow.conditions_clean)).map (fun cond =>
    let grp := rows.filter (fun r => r.conditions_clean == cond)
    { condition := cond
      trial_count := grp.length
      total_enrollment := (grp.map CtRow.enrollment_count).sum
      completed_trials := (grp.map CtRow.is_completed).sum })

/-- fda_df drug_name_clean and drug_indication pairs after
drop_duplicates, keeping first occurrences. -/
def drugIndicationPairs (rows : List FdaRow) : List (String × String) :=
  distinctFirst (rows.map (fun r => (r.drug_name_clean, r.drug_indication)))

/-- Normalized indication strings of one drug: the indication_norm list
the merge loop extracts for drug_name. -/
def indicationsOf (rows : List FdaRow) (name : String) : List String :=
  ((drugIndicationPairs rows).filter (fun p => p.1 == name)).map
    (fun p => normalizeText p.2)

/-- The match lambda of the merge loop: any(ind in x or x in ind for ind
in indications if ind), where x is the normalized condition. The if ind
guard skips indications that normalize to the empty string. -/
def condMatches (indications : List String) (condNorm : String) : Bool :=
  indications.any (fun ind =>
    (!(ind == "")) && (isSubstrOf ind condNorm || isSubstrOf condNorm ind))

/-- The matches frame for one drug: ct_summary filtered by the match
lambda over condition_norm. -/
def matchesList (fda : List FdaRow) (ct : List CtRow) (name : String) :
    List CondAgg :=
  (ctSummary ct).filter (fun c =>
    condMatches (indicationsOf fda name) (normalizeText c.condition))

structure TrialStats where
  trial_count : ℕ
  total_enrollment : ℤ
  completed_trials : ℤ
deriving DecidableEq, Repr

/-- The per-drug trial_stats dict: sums over the matches frame when it is
nonempty, zeros otherwise. -/
def trialStatsFor (fda : List FdaRow) (ct : List CtRow) (name : String) :
    TrialStats :=
  let ms := matchesList fda ct name
  if ms.isEmpty then ⟨0, 0, 0⟩
  else
    ⟨(ms.map CondAgg.trial_count).sum,
     (ms.map CondAgg.total_enrollment).sum,
     (ms.map CondAgg.completed_trials).sum⟩

structure EnrichedRow where
  drug_name : String
  adverse_event_count : ℕ
  avg_severity_score : ℚ
  death_count : ℚ
  hospitalization_count : ℚ
  trial_count : ℕ
  total_enrollment : ℤ
  completed_trials : ℤ
deriving DecidableEq, Repr

/-- row_data = drug_row.to_dict() updated with the trial stats. -/
def mergeRow (d : DrugAgg) (t : TrialStats) : EnrichedRow :=
  { drug_name := d.drug_name
    adverse_event_count := d.adverse_event_count
    avg_severity_score := d.avg_severity_score
    death_count := d.death_count
    hospitalization_count := d.hospitalization_count
    trial_count := t.trial_count
    total_enrollment := t.total_enrollment
    completed_trials := t.completed_trials }

/-- The four result shapes of _enrich_data, matching which input frames
were nonempty. -/
inductive EnrichResult where
  | empty
  | fdaOnly (rows : List DrugAgg)
  | ctOnly (rows : List CondAgg)
  | merged (rows : List EnrichedRow)
deriving DecidableEq, Repr

/-- DrugTransformer._enrich_data: FDA summary alone when only FDA data
exists, ClinicalTrials summary alone when only trial data exists, the
merge loop when both exist, an empty frame when neither does. -/
def enrichData (fda : List FdaRow) (ct : List CtRow) : EnrichResult :=
  if fda.isEmpty then
    if ct.isEmpty then .empty else .ctOnly (ctSummary ct)
  else
    if ct.isEmpty then .fdaOnly (fdaSummary fda)
    else
      .merged ((fdaSummary fda).map (fun d =>
        mergeRow d (trialStatsFor fda ct d.drug_name)))

/-- The linkage test exactly as the claim words it, with no guard on
empty indications: some indication of the drug is a substring of the
normalized condition or vice versa. Stated for refuting the unqualified
bidirectional-containment claim. -/
def specLinkedStated (fda : List FdaRow) (name : String)
    (condNorm : String) : Bool :=
  (indicationsOf fda name).any (fun ind =>
    isSubstrOf ind condNorm || isSubstrOf condNorm ind)

/-- The linkage test as amended: some indication whose normalization is
nonempty is a substring of the normalized condition or vice versa. -/
def specLinked (fda : List FdaRow) (name : String) (c : CondAgg) : Bool :=
  (indicationsOf fda name).any (fun ind =>
    (!(ind == "")) &&
      (isSubstrOf ind (normalizeText c.condition) ||
       isSubstrOf (normalizeText c.condition) ind))

/-- Specification-side trial stats: componentwise sums over exactly the
condition aggregates linked to the drug, with no special empty case (sums
over an empty list are zero, giving the zero-filled triple). -/
def specTrialStats (fda : List FdaRow) (ct : List CtRow) (name : String) :
    TrialStats :=
  let ms := (ctSummary ct).filter (fun c => specLinked fda name c)
  ⟨(ms.map CondAgg.trial_count).sum,
   (ms.map CondAgg.total_enrollment).sum,
   (ms.map CondAgg.completed_trials).sum⟩

/-- Concrete FDA frame whose single drug has an indication that
normalizes to the empty string. -/
def fdaEmptyInd : List FdaRow :=
  [{ safetyreportid := "R1", drug_name_clean := "D", drug_indication := " "
     severity_score := 7, seriousnessdeath := 0
     seriousnesshospitalization := 0 }]

/-- Concrete ClinicalTrials frame with one condition. -/
def ctOneCond : List CtRow :=
  [{ nct_id := "N1", conditions_clean := "X", enrollment_count := 100
     is_completed := 1 }]

/-! ## DataQualityChecker

The validated frame is modelled as an explicit column list plus rows of
column-to-value association lists; a column absent from cols is what the
source means by col not in df.columns. pandas dtype tests are modelled
value-wise: a column is numeric (resp. datetime) when every value in it
is a number or NaN (resp. a date or NaT). Failure messages are modelled
as a structured type carrying the same parameters the source interpolates
into its strings, sidestepping decimal formatting. Loading from storage
and the surrounding try/except are outside this model: validation is
applied to an in-memory frame. -/

inductive DVal where
  | na
  | str (s : String)
  | num (q : ℚ)
  | date (t : ℤ)
deriving DecidableEq, Repr

structure QFrame where
  cols : List String
  rows : List (List (String × DVal))
deriving DecidableEq, Repr

def getVal (r : List (String × DVal)) (c : String) : DVal :=
  (r.lookup c).getD .na

/-- Structured stand-ins for the failure message strings of
DataQualityChecker, one constructor per distinct message shape. -/
inductive Failure where
  | noData
  | missingRequiredColumn (tag col : String)
  | highNullRate (tag col : String) (pct : ℚ)
  | shouldBeNumeric (col : String)
  | shouldBeDatetime (col : String)
  | invalidValues (col : String) (count : ℕ)
  | duplicates (tag : String) (count : ℕ)
  | belowMinRecords (count minRecords : ℕ)
  | sourceTooFew (source : DVal) (count : ℕ)
  | startAfterCompletion (count : ℕ)
  | futureDate (col : String) (count : ℕ)
deriving DecidableEq, Repr

structure CheckResult where
  name : String
  passed : Bool
  failures : List Failure
deriving DecidableEq, Repr

/-- Every private check returns passed = (len(failures) == 0) alongside
its failure list. -/
def mkCheck (name : String) (failures : List Failure) : CheckResult :=
  { name := name, passed := failures.isEmpty, failures := failures }

/-- The per-source required-column loop of _check_completeness: a missing
column is one failure; a present column with any nulls fails when the
null percentage over that source's rows exceeds 10. -/
def requiredCheck (df : QFrame) (sourceVal tag : String)
    (required : List String) : List Failure :=
  let sub := df.rows.filter (fun r => getVal r "data_source" == .str sourceVal)
  required.filterMap (fun col =>
    if col ∈ df.cols then
      let nulls := sub.countP (fun r => getVal r col == .na)
      if nulls > 0 then
        let pct : ℚ := ((nulls : ℚ) / (sub.length : ℚ)) * 100
        if pct > 10 then some (.highNullRate tag col pct) else none
      else none
    else some (.missingRequiredColumn tag col))

def checkCompleteness (df : QFrame) : CheckResult :=
  mkCheck "completeness"
    (if "data_source" ∈ df.cols then
      (if df.rows.any (fun r => getVal r "data_source" == .str "FDA_OpenFDA")
       then requiredCheck df "FDA_OpenFDA" "FDA"
         ["safetyreportid", "receivedate", "drug_name"]
       else []) ++
      (if df.rows.any
         (fun r => getVal r "data_source" == .str "ClinicalTrials_gov")
       then requiredCheck df "ClinicalTrials_gov" "CT"
         ["nct_id", "brief_title", "overall_status"]
       else [])
    else [])

def isNumericCol (df : QFrame) (col : String) : Bool :=
  df.rows.all (fun r =>
    match getVal r col with
    | .na => true
    | .num _ => true
    | _ => false)

def isDatetimeCol (df : QFrame) (col : String) : Bool :=
  df.rows.all (fun r =>
    match getVal r col with
    | .na => true
    | .date _ => true
    | _ => false)

def checkDataTypes (df : QFrame) : CheckResult :=
  mkCheck "data_types"
    ((["severity_score", "adverse_event_count", "enrollment_count"].filterMap
      (fun col =>
        if col ∈ df.cols then
          if isNumericCol df col then none else some (.shouldBeNumeric col)
        else none)) ++
     (["receivedate", "processed_date", "start_date",
       "completion_date"].filterMap (fun col =>
        if col ∈ df.cols then
          if isDatetimeCol df col then none else some (.shouldBeDatetime col)
        else none)))

def checkValueRanges (df : QFrame) : CheckResult :=
  mkCheck "value_ranges"
    ((if "severity_score" ∈ df.cols then
        let invalid := df.rows.countP (fun r =>
          match getVal r "severity_score" with
          | .num q => decide (q < 0 ∨ 100 < q)
          | _ => false)
        if invalid > 0 then [.invalidValues "severity_score" invalid] else []
      else []) ++
     (if "patient_age" ∈ df.cols then
        let invalid := df.rows.countP (fun r =>
          match getVal r "patient_age" with
          | .num q => decide (q < 0 ∨ 120 < q)
          | _ => false)
        if invalid > 0 then [.invalidValues "patient_age" invalid] else []
      else []) ++
     (if "enrollment_count" ∈ df.cols then
        let invalid := df.rows.countP (fun r =>
          match getVal r "enrollment_count" with
          | .num q => decide (q < 0)
          | _ => false)
        if invalid > 0 then [.invalidValues "enrollment_count" invalid]
        else []
      else []))

/-- pandas duplicated(subset, keep=False) row count: rows whose key value
occurs at least twice in the subset (pandas treats equal NaN keys as
duplicates of each other, as does DVal.na here). -/
def dupCount (rows : List (List (String × DVal))) (key : String) : ℕ :=
  rows.countP (fun r =>
    decide (2 ≤ rows.countP (fun r2 => getVal r2 key == getVal r key)))

def checkDuplicates (df : QFrame) : CheckResult :=
  mkCheck "duplicates"
    ((if "safetyreportid" ∈ df.cols then
        let sub := if "data_source" ∈ df.cols then
          df.rows.filter (fun r => getVal r "data_source" == .str "FDA_OpenFDA")
        else df.rows
        let d := dupCount sub "safetyreportid"
        if d > 0 then [.duplicates "FDA" d] else []
      else []) ++
     (if "nct_id" ∈ df.cols then
        let sub := if "data_source" ∈ df.cols then
          df.rows.filter
            (fun r => getVal r "data_source" == .str "ClinicalTrials_gov")
        else df.rows
        let d := dupCount sub "nct_id"
        if d > 0 then [.duplicates "CT" d] else []
      else []))

/-- Distinct values in first-appearance order; pandas value_counts
orders by descending count, which no property here depends on. -/
def distinctVals (l : List DVal) : List DVal :=
  l.foldl (fun acc v => if v ∈ acc then acc else acc ++ [v]) []

def checkRecordCount (df : QFrame) : CheckResult :=
  mkCheck "record_count"
    ((if df.rows.length < 10 then [.belowMinRecords df.rows.length 10]
      else []) ++
     (if "data_source" ∈ df.cols then
        (distinctVals ((df.rows.map (fun r => getVal r "data_source")).filter
          (fun v => !(v == .na)))).filterMap (fun v =>
            let cnt := df.rows.countP (fun r => getVal r "data_source" == v)
            if cnt < 5 then some (.sourceTooFew v cnt) else none)
      else []))

def checkDateConsistency (now : ℤ) (df : QFrame) : CheckResult :=
  mkCheck "date_consistency"
    ((if "start_date" ∈ df.cols ∧ "completion_date" ∈ df.cols then
        let invalid := df.rows.countP (fun r =>
          match getVal r "start_date", getVal r "completion_date" with
          | .date a, .date b => decide (b < a)
          | _, _ => false)
        if invalid > 0 then [.startAfterCompletion invalid] else []
      else []) ++
     (["receivedate", "start_date", "completion_date"].filterMap (fun col =>
        if col ∈ df.cols then
          let future := df.rows.countP (fun r =>
            match getVal r col with
            | .date t => decide (now < t)
            | _ => false)
          if future > 0 then some (.futureDate col future) else none
        else none)))

structure ValidationResult where
  passed : Bool
  failures : List Failure
  message : Option String := none
  totalChecks : Option ℕ := none
  failedChecks : Option ℕ := none
  recordCount : Option ℕ := none
deriving DecidableEq, Repr

/-- DataQualityChecker.validate_transformed_data on an in-memory frame:
an empty frame short-circuits to the no-data report; otherwise all six
checks run in their listed order and the failure lists of failing checks
are concatenated, passed being the emptiness of the aggregate. The
current timestamp consulted by the date-consistency check is the now
parameter. -/
def validateTransformedData (now : ℤ) (df : QFrame) : ValidationResult :=
  if df.rows.isEmpty then
    { passed := false, failures := [.noData], message := some "No data found" }
  else
    let checks := [checkCompleteness df, checkDataTypes df,
      checkValueRanges df, checkDuplicates df, checkRecordCount df,
      checkDateConsistency now df]
    let failures := checks.foldl
      (fun acc c => if c.passed then acc else acc ++ c.failures) []
    { passed := failures.isEmpty
      failures := failures
      totalChecks := some checks.length
      failedChecks := some failures.length
      recordCount := some df.rows.length }

/-- Oracle on which every attempt fails with a timeout. -/
def oracleAllFail : Nat → ReqOutcome Nat := fun _ => .exc .timeout

/-- Three-page FDA source: full pages of 1000 records at skip 0 and 1000,
a short page of 500 records afterwards. -/
def oracle3w : Nat → FdaResp Nat :=
  fun skip =>
    if skip = 0 then .results (List.replicate 1000 0)
    else if skip = 1000 then .results (List.replicate 1000 0)
    else .results (List.replicate 500 0)

/-- Concrete FDA frame with one row whose indication is nonempty. -/
def fdaWit : List FdaRow :=
  [{ safetyreportid := "R2", drug_name_clean := "DRUG A"
     drug_indication := "Headache", severity_score := 2
     seriousnessdeath := 0, seriousnesshospitalization := 0 }]

/-- Concrete ClinicalTrials frame with one matching condition. -/
def ctWit : List CtRow :=
  [{ nct_id := "N2", conditions_clean := "HEADACHE", enrollment_count := 100
     is_completed := 1 }]

/-- Concrete FDA frame whose drug carries the nonempty indication Flu. -/
def fdaWitTen : List FdaRow :=
  [{ safetyreportid := "R3", drug_name_clean := "DRUG B"
     drug_indication := "Flu", severity_score := 0
     seriousnessdeath := 0, seriousnesshospitalization := 0 }]

/-- Concrete ClinicalTrials frame whose single condition normalizes to the
empty string. -/
def ctWitTen : List CtRow :=
  [{ nct_id := "N3", conditions_clean := " ", enrollment_count := 50
     is_completed := 1 }]

/-- Concrete nonempty quality frame used as a validation witness. -/
def qfWit : QFrame :=
  { cols := ["data_source"]
    rows := [[("data_source", DVal.str "FDA_OpenFDA")]] }

/-! ## Helper lemmas -/

/-- The empty string is a Python substring of every string. -/
theorem isSubstrOf_empty_left (s : String) : isSubstrOf "" s = true := by
  unfold isSubstrOf
  cases h : s.data with
  | nil => simp [h, suffixes, List.isPrefixOf]
  | cons a l => simp [h, suffixes, List.isPrefixOf]

/-- One aggregation step of the failure-collecting loop: because every
check reports passed exactly when its failure list is empty, the
conditional extend amounts to unconditional concatenation. -/
theorem foldStep (c : CheckResult) (hc : c.passed = c.failures.isEmpty)
    (acc : List Failure) :
    (if c.passed then acc else acc ++ c.failures) = acc ++ c.failures := by
  cases hf : c.failures with
  | nil => simp [hc, hf]
  | cons a l => simp [hc, hf]

/-- The trial-stats dict of the merge loop equals the specification-side
sums over the linked condition aggregates; the isEmpty special case of
the source is redundant because sums over an empty list are zero. -/
theorem trialStats_eq (fda : List FdaRow) (ct : List CtRow) (name : String) :
    trialStatsFor fda ct name = specTrialStats fda ct name := by
  have hm : matchesList fda ct name =
      (ctSummary ct).filter (fun c => specLinked fda name c) := rfl
  unfold trialStatsFor specTrialStats
  rw [hm]
  cases h : (ctSummary ct).filter (fun c => specLinked fda name c) with
  | nil => simp
  | cons a l => simp

/-! ## Claim theorems -/

/-- C5: the severity score of a drug-event row equals serious times 2 plus
deaths times 10 plus hospitalizations times 5, with absent indicator
fields (missing column or NaN value) contributing 0; the concrete input
serious 1, death 0, hospitalization 1 scores 7; and for nonnegative
indicator values the score is never negative. The defining equation is
exact and linear, so no upper clamp exists. -/
theorem severityScoreSpec (s d h : Option ℚ) :
    calculateSeverityRow true true true s d h =
      (s.getD 0) * 2 + (d.getD 0) * 10 + (h.getD 0) * 5 ∧
    calculateSeverityRow true true true (some 1) (some 0) (some 1) = 7 ∧
    (0 ≤ s.getD 0 → 0 ≤ d.getD 0 → 0 ≤ h.getD 0 →
      ∀ hs hd hh : Bool, 0 ≤ calculateSeverityRow hs hd hh s d h) := by
  refine ⟨rfl, by norm_num [calculateSeverityRow], ?_⟩
  intro h1 h2 h3 hs hd hh
  unfold calculateSeverityRow
  have t1 : (0:ℚ) ≤ (if hs then (s.getD 0) * 2 else 0) := by
    cases hs
    · simp
    · simpa using mul_nonneg h1 (by norm_num : (0:ℚ) ≤ 2)
  have t2 : (0:ℚ) ≤ (if hd then (d.getD 0) * 10 else 0) := by
    cases hd
    · simp
    · simpa using mul_nonneg h2 (by norm_num : (0:ℚ) ≤ 10)
  have t3 : (0:ℚ) ≤ (if hh then (h.getD 0) * 5 else 0) := by
    cases hh
    · simp
    · simpa using mul_nonneg h3 (by norm_num : (0:ℚ) ≤ 5)
  exact add_nonneg (add_nonneg t1 t2) t3

/-- Witness for C5 at the concrete input serious 1, death 0,
hospitalization 1. -/
theorem severityScoreSpec_witness :
    (0:ℚ) ≤ (some (1:ℚ)).getD 0 ∧ (0:ℚ) ≤ (some (0:ℚ)).getD 0 ∧
    0 ≤ calculateSeverityRow true true true (some 1) (some 0) (some 1) := by
  refine ⟨by norm_num, by norm_num, ?_⟩
  exact (severityScoreSpec (some 1) (some 0) (some 1)).2.2 (by norm_num)
    (by norm_num) (by norm_num) true true true

/-- C6: phase parsing is the first-matching-rule lookup over the ordered
table PHASE 4/IV, PHASE 3/III, PHASE 2/II, EARLY, PHASE 1/I after
uppercasing, with 0 as default; ambiguous strings resolve by that listed
priority (PHASE 13 hits only the PHASE 1 rule and gives 1.0, EARLY
PHASE 1 gives 0.5 because EARLY precedes PHASE 1, PHASE 2, PHASE 3 gives
3.0 because 3 precedes 2); matching is case-insensitive and None or empty
input gives 0. -/
theorem parsePhaseSpec (s : Option String) :
    parsePhase s = (match s with
      | none => 0
      | some t => if t = "" then 0 else firstMatchPhase (pyUpper t) phaseTable) ∧
    parsePhase (some "PHASE 13") = 1 ∧
    parsePhase (some "EARLY PHASE 1") = 1/2 ∧
    parsePhase (some "PHASE 2, PHASE 3") = 3 ∧
    parsePhase (some "phase 4") = 4 ∧
    parsePhase none = 0 ∧
    parsePhase (some "") = 0 ∧
    parsePhase (some "OBSERVATIONAL") = 0 := by
  refine ⟨?_, by decide, ?_, by decide, by decide, rfl, by decide,
    by decide⟩
  case refine_2 =>
    have h1 : isSubstrOf "PHASE 4" (pyUpper "EARLY PHASE 1") = false := by
      decide
    have h2 : isSubstrOf "PHASE IV" (pyUpper "EARLY PHASE 1") = false := by
      decide
    have h3 : isSubstrOf "PHASE 3" (pyUpper "EARLY PHASE 1") = false := by
      decide
    have h4 : isSubstrOf "PHASE III" (pyUpper "EARLY PHASE 1") = false := by
      decide
    have h5 : isSubstrOf "PHASE 2" (pyUpper "EARLY PHASE 1") = false := by
      decide
    have h6 : isSubstrOf "PHASE II" (pyUpper "EARLY PHASE 1") = false := by
      decide
    have h7 : isSubstrOf "EARLY" (pyUpper "EARLY PHASE 1") = true := by decide
    simp [parsePhase, h1, h2, h3, h4, h5, h6, h7]
  cases s with
  | none => rfl
  | some t =>
    by_cases h : t = ""
    · simp [parsePhase, h]
    · simp [parsePhase, h, firstMatchPhase, phaseTable]

/-- C7: age normalization to years multiplies by 10 for decades (unit
code 800), is the identity for years (801), divides by 12 for months
(802), by 52 for weeks (803), by 365 for days (804); an unknown unit
passes the magnitude through unchanged and a missing magnitude yields
null. -/
theorem extractAgeSpec (v : ℚ) (u : Option String) :
    extractAge (some v) (some "800") = some (v * 10) ∧
    extractAge (some v) (some "801") = some v ∧
    extractAge (some v) (some "802") = some (v / 12) ∧
    extractAge (some v) (some "803") = some (v / 52) ∧
    extractAge (some v) (some "804") = some (v / 365) ∧
    extractAge none u = none ∧
    (u ∉ [some "800", some "801", some "802", some "803", some "804"] →
      extractAge (some v) u = some v) := by
  refine ⟨rfl, by simp [extractAge], by simp [extractAge], by simp [extractAge],
    by simp [extractAge], rfl, ?_⟩
  intro hu
  simp only [List.mem_cons, List.not_mem_nil, or_false, not_or] at hu
  obtain ⟨h1, h2, h3, h4, h5⟩ := hu
  simp [extractAge, h1, h2, h3, h4, h5]

/-- Witness for C7 at the unknown unit code 999 and magnitude 3. -/
theorem extractAgeSpec_witness :
    (some "999") ∉ [some "800", some "801", some "802", some "803",
      some "804"] ∧
    extractAge (some (3:ℚ)) (some "999") = some 3 := by
  refine ⟨by decide, ?_⟩
  exact (extractAgeSpec 3 (some "999")).2.2.2.2.2.2 (by decide)

/-- C9: validating an empty dataset returns a failed report carrying the
no-data failure; the embedding is a total function, matching the source,
whose only behavior on the empty frame is this early return (no exception
escapes: the surrounding try/except converts any exception into a failed
report, and this path raises none). -/
theorem validateEmptySpec (now : ℤ) (df : QFrame) (h : df.rows = []) :
    validateTransformedData now df =
      { passed := false, failures := [.noData]
        message := some "No data found" } := by
  simp [validateTransformedData, h]

/-- Witness for C9 on the concrete empty frame. -/
theorem validateEmptySpec_witness :
    (QFrame.mk [] []).rows = [] ∧
    validateTransformedData 0 (QFrame.mk [] []) =
      { passed := false, failures := [.noData]
        message := some "No data found" } :=
  ⟨rfl, validateEmptySpec 0 (QFrame.mk [] []) rfl⟩

/-- C4: for every validation run over a nonempty dataset, the report
passes exactly when its aggregated failure list is empty, and that list
is the concatenation of the failure lists of the six checks in their
fixed order: completeness, data types, value ranges, duplicates, record
count, date consistency. All six check results are computed before
aggregation, so every check runs regardless of earlier failures. -/
theorem validateAggregationSpec (now : ℤ) (df : QFrame) (h : df.rows ≠ []) :
    ((validateTransformedData now df).passed = true ↔
      (validateTransformedData now df).failures = []) ∧
    (validateTransformedData now df).failures =
      (checkCompleteness df).failures ++ (checkDataTypes df).failures ++
      (checkValueRanges df).failures ++ (checkDuplicates df).failures ++
      (checkRecordCount df).failures ++
      (checkDateConsistency now df).failures := by
  have hne : df.rows.isEmpty = false := by
    cases hr : df.rows with
    | nil => exact absurd hr h
    | cons a l => rfl
  have hall : validateTransformedData now df =
      { passed := ((checkCompleteness df).failures ++
          (checkDataTypes df).failures ++ (checkValueRanges df).failures ++
          (checkDuplicates df).failures ++ (checkRecordCount df).failures ++
          (checkDateConsistency now df).failures).isEmpty
        failures := (checkCompleteness df).failures ++
          (checkDataTypes df).failures ++ (checkValueRanges df).failures ++
          (checkDuplicates df).failures ++ (checkRecordCount df).failures ++
          (checkDateConsistency now df).failures
        totalChecks := some 6
        failedChecks := some ((checkCompleteness df).failures ++
          (checkDataTypes df).failures ++ (checkValueRanges df).failures ++
          (checkDuplicates df).failures ++ (checkRecordCount df).failures ++
          (checkDateConsistency now df).failures).length
        recordCount := some df.rows.length } := by
    unfold validateTransformedData
    rw [hne]
    simp only [Bool.false_eq_true, if_false, List.foldl]
    rw [foldStep _ rfl, foldStep _ rfl, foldStep _ rfl, foldStep _ rfl,
      foldStep _ rfl, foldStep _ rfl]
    simp [List.append_assoc]
  rw [hall]
  refine ⟨?_, by simp [List.append_assoc]⟩
  simp [List.isEmpty_iff]

/-- Witness for C4 on a concrete one-row frame. -/
theorem validateAggregationSpec_witness :
    qfWit.rows ≠ [] ∧
    ((validateTransformedData 0 qfWit).passed = true ↔
      (validateTransformedData 0 qfWit).failures = []) ∧
    (validateTransformedData 0 qfWit).failures =
      (checkCompleteness qfWit).failures ++ (checkDataTypes qfWit).failures ++
      (checkValueRanges qfWit).failures ++ (checkDuplicates qfWit).failures ++
      (checkRecordCount qfWit).failures ++
      (checkDateConsistency 0 qfWit).failures :=
  ⟨by decide, validateAggregationSpec 0 qfWit (by decide)⟩

/-- C2 as amended: the FDA request helper retries every request failure
uniformly, transient or 4xx alike, up to 3 attempts total, sleeping
retry_delay times attempt (2 s then 4 s) between attempts, and re-raises
the error of the third failed attempt; a success at any attempt returns
immediately with no further sleeps; and the ClinicalTrials page fetch
performs no retry at all, re-raising the first failure. -/
theorem retryBehaviorSpec (α : Type) (oracle : Nat → ReqOutcome α) :
    (∀ e0 e1 e2, oracle 0 = .exc e0 → oracle 1 = .exc e1 →
      oracle 2 = .exc e2 →
      makeRequest oracle = (some (.error e2), [2, 4])) ∧
    (∀ v, oracle 0 = .ok v → makeRequest oracle = (some (.ok v), [])) ∧
    (∀ e0 v, oracle 0 = .exc e0 → oracle 1 = .ok v →
      makeRequest oracle = (some (.ok v), [2])) ∧
    (∀ e0 e1 v, oracle 0 = .exc e0 → oracle 1 = .exc e1 → oracle 2 = .ok v →
      makeRequest oracle = (some (.ok v), [2, 4])) ∧
    (∀ e, fetchPage (.exc e : ReqOutcome α) = .error e) := by
  have hr : List.range 3 = [0, 1, 2] := rfl
  refine ⟨?_, ?_, ?_, ?_, fun e => rfl⟩
  · intro e0 e1 e2 h0 h1 h2
    simp [makeRequest, hr, runAttempts, h0, h1, h2]
  · intro v h0
    simp [makeRequest, hr, runAttempts, h0]
  · intro e0 v h0 h1
    simp [makeRequest, hr, runAttempts, h0, h1]
  · intro e0 e1 v h0 h1 h2
    simp [makeRequest, hr, runAttempts, h0, h1, h2]

/-- Witness for C2 on the oracle whose every attempt times out. -/
theorem retryBehaviorSpec_witness :
    oracleAllFail 0 = .exc .timeout ∧ oracleAllFail 1 = .exc .timeout ∧
    oracleAllFail 2 = .exc .timeout ∧
    makeRequest oracleAllFail = (some (.error .timeout), [2, 4]) :=
  ⟨rfl, rfl, rfl,
    (retryBehaviorSpec Nat oracleAllFail).1 .timeout .timeout .timeout
      rfl rfl rfl⟩

/-- C2 counterexample to the claim as stated: after a 404 response, a
non-transient client error other than 429, the FDA request helper does
retry, here sleeping 2 s and succeeding on the second attempt, instead of
re-raising without retrying. -/
theorem retryBehaviorCounterexample :
    makeRequest oracle404 = (some (.ok 7), [2]) ∧
    makeRequest oracle404 ≠ (some (.error (.status 404)), []) := by
  constructor
  · rfl
  · intro hcontra
    have h1 : makeRequest oracle404 = (some (.ok 7), [2]) := rfl
    rw [h1] at hcontra
    simp at hcontra

/-- C1 as amended: when both frames are nonempty, the enriched output has
exactly one row per drug aggregate, in order, so no drug row is dropped,
and each row carries the componentwise sums of trial count, enrollment
and completed count over exactly those condition aggregates for which
some indication of the drug with nonempty normalization is a substring of
the normalized condition or vice versa; a drug linked to no condition
gets the zero triple because sums over the empty selection are zero. -/
theorem fuzzyJoinSpec (fda : List FdaRow) (ct : List CtRow)
    (hf : fda ≠ []) (hc : ct ≠ []) :
    enrichData fda ct = .merged ((fdaSummary fda).map (fun d =>
      mergeRow d (specTrialStats fda ct d.drug_name))) := by
  have hf2 : fda.isEmpty = false := by
    cases fda with
    | nil => exact absurd rfl hf
    | cons a l => rfl
  have hc2 : ct.isEmpty = false := by
    cases ct with
    | nil => exact absurd rfl hc
    | cons a l => rfl
  simp only [enrichData, hf2, hc2, Bool.false_eq_true, if_false]
  simp only [trialStats_eq]

/-- Witness for C1 on a one-drug, one-condition pair of frames. -/
theorem fuzzyJoinSpec_witness :
    fdaWit ≠ [] ∧ ctWit ≠ [] ∧
    enrichData fdaWit ctWit = .merged ((fdaSummary fdaWit).map (fun d =>
      mergeRow d (specTrialStats fdaWit ctWit d.drug_name))) :=
  ⟨by decide, by decide,
    fuzzyJoinSpec fdaWit ctWit (by decide) (by decide)⟩

/-- C1 counterexample to the claim as stated: the drug D has the single
indication, a lone space, whose normalization is the empty string, which
is a substring of the normalized condition x, so the unqualified
bidirectional containment test of the claim links D to X and would sum
the (1, 100, 1) aggregate of X onto the row of D; the code's if ind guard
skips empty indications, so the row of D gets the zero triple instead. -/
theorem fuzzyJoinCounterexample :
    specLinkedStated fdaEmptyInd "D" (normalizeText "X") = true ∧
    (fdaSummary fdaEmptyInd).map DrugAgg.drug_name = ["D"] ∧
    ctSummary ctOneCond = [(⟨"X", 1, 100, 1⟩ : CondAgg)] ∧
    trialStatsFor fdaEmptyInd ctOneCond "D" = ⟨0, 0, 0⟩ ∧
    enrichData fdaEmptyInd ctOneCond = .merged
      ((fdaSummary fdaEmptyInd).map (fun d =>
        mergeRow d (trialStatsFor fdaEmptyInd ctOneCond d.drug_name))) ∧
    (match enrichData fdaEmptyInd ctOneCond with
      | .merged rows => rows.map EnrichedRow.trial_count
      | _ => []) = [0] := by
  refine ⟨by decide, by decide, by decide, by decide, rfl, by decide⟩

/-- C10: a condition aggregate whose condition normalizes to the empty
string is matched by every drug having at least one indication with
nonempty normalization, because the empty condition string is a substring
of that indication; such a condition therefore lands in the matches
selection whose componentwise sums form the drug's trial-stats triple. -/
theorem emptyConditionMatchesSpec (fda : List FdaRow) (ct : List CtRow)
    (name : String) (c : CondAgg) (hc : c ∈ ctSummary ct)
    (hn : normalizeText c.condition = "")
    (hi : ∃ ind ∈ indicationsOf fda name, ind ≠ "") :
    c ∈ matchesList fda ct name ∧
    trialStatsFor fda ct name =
      ⟨((matchesList fda ct name).map CondAgg.trial_count).sum,
       ((matchesList fda ct name).map CondAgg.total_enrollment).sum,
       ((matchesList fda ct name).map CondAgg.completed_trials).sum⟩ := by
  obtain ⟨ind, hmem, hne⟩ := hi
  have hmatch : condMatches (indicationsOf fda name)
      (normalizeText c.condition) = true := by
    unfold condMatches
    rw [List.any_eq_true]
    refine ⟨ind, hmem, ?_⟩
    rw [hn]
    simp [hne, isSubstrOf_empty_left]
  have hmem2 : c ∈ matchesList fda ct name := by
    unfold matchesList
    rw [List.mem_filter]
    exact ⟨hc, hmatch⟩
  refine ⟨hmem2, ?_⟩
  have hne2 : (matchesList fda ct name).isEmpty = false := by
    cases hml : matchesList fda ct name with
    | nil => rw [hml] at hmem2; simp at hmem2
    | cons a l => rfl
  unfold trialStatsFor
  simp [hne2]

/-- Witness for C10: the condition, a lone space, normalizes to the empty
string and is matched by the drug whose indication Flu normalizes to the
nonempty string flu. -/
theorem emptyConditionMatchesSpec_witness :
    (⟨" ", 1, 50, 1⟩ : CondAgg) ∈ ctSummary ctWitTen ∧
    normalizeText (" ") = "" ∧
    (∃ ind ∈ indicationsOf fdaWitTen "DRUG B", ind ≠ "") ∧
    (⟨" ", 1, 50, 1⟩ : CondAgg) ∈ matchesList fdaWitTen ctWitTen "DRUG B" := by
  refine ⟨by decide, by decide, by decide, ?_⟩
  exact (emptyConditionMatchesSpec fdaWitTen ctWitTen "DRUG B" ⟨" ", 1, 50, 1⟩
    (by decide) (by decide) (by decide)).1

/-- C3: the ClinicalTrials extraction loop checks the falsy-token break
before the max-records truncation, so a source whose single page serves
10 studies with no continuation token escapes the max_studies = 5 cap and
all 10 studies are returned, contradicting the documented maximum; the
FDA extractor, by contrast, always truncates to at most its limit. -/
theorem maxRecordsTruncation :
    extractStudies [CtResp.page (List.range 10) none] (some 5) =
      List.range 10 ∧
    (extractStudies [CtResp.page (List.range 10) none] (some 5)).length =
      10 ∧
    (∀ (oracle : Nat → FdaResp Nat) (limit : Nat),
      (extractDrugEvents oracle limit).length ≤ limit) := by
  refine ⟨by decide, by decide, ?_⟩
  intro oracle limit
  unfold extractDrugEvents
  rw [List.length_take]
  exact Nat.min_le_left _ _

/-- C8: the FDA pagination loop stops immediately, with no further
request, whenever a fetched page holds fewer records than the requested
page size min(limit, 1000); in particular a three-page run whose first
two pages are full at skip 0 and 1000 and whose third page at skip 2000
is short ends right after the third page, returning those three pages,
whatever the oracle would serve at later offsets. The FDA loop carries no
continuation token at all, so no token is consulted. -/
theorem fdaShortPageStops :
    (∀ (α : Type) (oracle : Nat → FdaResp α) (limit skip : Nat)
      (acc rs : List α),
      acc.length < limit → oracle skip = .results rs →
      rs.length < min limit 1000 →
      fdaExtractLoop oracle limit skip acc = acc ++ rs) ∧
    (∀ (α : Type) (oracle : Nat → FdaResp α) (limit : Nat)
      (rs0 rs1 rs2 : List α),
      oracle 0 = .results rs0 → oracle 1000 = .results rs1 →
      oracle 2000 = .results rs2 →
      rs0.length = 1000 → rs1.length = 1000 → rs2.length < 1000 →
      2000 < limit → 2000 + rs2.length ≤ limit →
      extractDrugEvents oracle limit = (rs0 ++ rs1) ++ rs2) := by
  have hstop : ∀ (α : Type) (oracle : Nat → FdaResp α) (limit skip : Nat)
      (acc rs : List α),
      acc.length < limit → oracle skip = .results rs →
      rs.length < min limit 1000 →
      fdaExtractLoop oracle limit skip acc = acc ++ rs := by
    intro α oracle limit skip acc rs hlen ho hshort
    rw [fdaExtractLoop]
    simp [hlen, ho, hshort]
  have hcont : ∀ (α : Type) (oracle : Nat → FdaResp α) (limit skip : Nat)
      (acc rs : List α),
      acc.length < limit → oracle skip = .results rs →
      ¬ rs.length < min limit 1000 →
      fdaExtractLoop oracle limit skip acc =
        fdaExtractLoop oracle limit (skip + min limit 1000) (acc ++ rs) := by
    intro α oracle limit skip acc rs hlen ho hfull
    rw [fdaExtractLoop]
    simp [hlen, ho, hfull]
  refine ⟨hstop, ?_⟩
  intro α oracle limit rs0 rs1 rs2 h0 h1 h2 hl0 hl1 hl2 hlim hsum
  have hmin : min limit 1000 = 1000 := by omega
  have s1 : fdaExtractLoop oracle limit 0 ([] : List α) =
      fdaExtractLoop oracle limit 1000 rs0 := by
    have hs := hcont α oracle limit 0 [] rs0 (by simp; omega) h0
      (by rw [hl0, hmin]; omega)
    simpa [hmin] using hs
  have s2 : fdaExtractLoop oracle limit 1000 rs0 =
      fdaExtractLoop oracle limit 2000 (rs0 ++ rs1) := by
    have hs := hcont α oracle limit 1000 rs0 rs1 (by rw [hl0]; omega) h1
      (by rw [hl1, hmin]; omega)
    simpa [hmin] using hs
  have s3 : fdaExtractLoop oracle limit 2000 (rs0 ++ rs1) =
      (rs0 ++ rs1) ++ rs2 := by
    refine hstop α oracle limit 2000 (rs0 ++ rs1) rs2 ?_ h2 ?_
    · simp [List.length_append, hl0, hl1]
      omega
    · rw [hmin]
      exact hl2
  unfold extractDrugEvents
  rw [s1, s2, s3]
  apply List.take_of_length_le
  simp [List.length_append, hl0, hl1]
  omega

/-- Witness for C8 on the concrete three-page source whose third page is
short. -/
theorem fdaShortPageStops_witness :
    oracle3w 0 = .results (List.replicate 1000 0) ∧
    oracle3w 1000 = .results (List.replicate 1000 0) ∧
    oracle3w 2000 = .results (List.replicate 500 0) ∧
    (List.replicate 500 (0:Nat)).length < 1000 ∧
    2000 < 3000 ∧
    extractDrugEvents oracle3w 3000 =
      (List.replicate 1000 0 ++ List.replicate 1000 0) ++
        List.replicate 500 0 := by
  refine ⟨rfl, rfl, rfl, by rw [List.length_replicate]; omega, by omega, ?_⟩
  exact (fdaShortPageStops).2 Nat oracle3w 3000 _ _ _ rfl rfl rfl
    (by rw [List.length_replicate]) (by rw [List.length_replicate])
    (by rw [List.length_replicate]; omega) (by omega)
    (by rw [List.length_replicate]; omega)

end MedEtl
